import Mathlib

/-!
Verification of the mitmproxy user-agent sniffer addon (mitm/ua_sniffer.py).

The Python source is shallowly embedded: pure helpers become Lean functions
over strings and lists; network calls are parameterised by an explicit
outcome value describing how the call behaved; the exception machinery is
modelled with Except, and a caught exception is modelled by matching on the
Except value exactly where the Python try/except sits.
-/

/-- ASCII lower-casing of one character, modelling Python str.lower on the
character sets handled by this program (host names, header values). -/
def lowerChar (c : Char) : Char := c.toLower

/-- Python s.lower(), character by character. -/
def pyLower (s : String) : String := ⟨s.data.map lowerChar⟩

/-- Python s.rstrip("."): remove every trailing dot. -/
def pyRstripDot (s : String) : String :=
  ⟨(s.data.reverse.dropWhile (fun c => c == '.')).reverse⟩

/-- Python s.endswith(t). -/
def pyEndsWith (s t : String) : Bool := t.data.isSuffixOf s.data

/-- t occurs as a contiguous run inside hay. -/
def listHasRun (t hay : List Char) : Bool :=
  (List.range (hay.length + 1)).any (fun i => t.isPrefixOf (hay.drop i))

/-- Python membership test t in s (substring containment). -/
def pyContains (s t : String) : Bool := listHasRun t.data s.data

/-- Python s[:n] slicing (truncation). -/
def pySlice (n : Nat) (s : String) : String := ⟨s.data.take n⟩

/-- BYPASS_HOSTS from the source: exact host names exempt from processing. -/
def BYPASS_HOSTS : List String := ["localhost", "127.0.0.1", "::1"]

/-- BYPASS_SUFFIXES from the source: domain suffixes exempt from processing. -/
def BYPASS_SUFFIXES : List String :=
  ["google.com", "cloudflare.com", "mitm.it", "spotify.com",
   "spclient.wg.spotify.com", "guc3-spclient.spotify.com"]

/-- host_in_bypass from the source: lower-case the host, strip trailing dots,
then test exact membership in BYPASS_HOSTS, or equality with a suffix, or
ending in "." plus a suffix. -/
def host_in_bypass (host : String) : Bool :=
  let h := pyRstripDot (pyLower host)
  if BYPASS_HOSTS.contains h then true
  else BYPASS_SUFFIXES.any (fun s =>
    let s2 := pyLower s
    h == s2 || pyEndsWith h ("." ++ s2))

theorem char_toNat_ofNat_valid (n : Nat) (h : n.isValidChar) :
    (Char.ofNat n).toNat = n := by
  simp [Char.ofNat, h, Char.ofNatAux, Char.toNat, UInt32.toNat, BitVec.toNat_ofNatLt]

theorem lowerChar_idem (c : Char) : lowerChar (lowerChar c) = lowerChar c := by
  simp only [lowerChar, Char.toLower]
  by_cases h : c.toNat ≥ 65 ∧ c.toNat ≤ 90
  · have hv : Nat.isValidChar (c.toNat + 32) := Or.inl (by omega)
    have ht : (Char.ofNat (c.toNat + 32)).toNat = c.toNat + 32 :=
      char_toNat_ofNat_valid _ hv
    rw [if_pos h, ht, if_neg (show ¬(c.toNat + 32 ≥ 65 ∧ c.toNat + 32 ≤ 90) by omega)]
  · rw [if_neg h, if_neg h]

theorem lowerChar_map_idem (l : List Char) :
    (l.map lowerChar).map lowerChar = l.map lowerChar := by
  induction l with
  | nil => rfl
  | cons a t ih => simp [lowerChar_idem, ih]

theorem pyLower_idem (s : String) : pyLower (pyLower s) = pyLower s := by
  show String.mk ((s.data.map lowerChar).map lowerChar) = String.mk (s.data.map lowerChar)
  rw [lowerChar_map_idem]

theorem lowerChar_dot : lowerChar '.' = '.' := by decide

theorem pyLower_append_dot (s : String) :
    pyLower (s ++ ".") = pyLower s ++ "." := by
  cases s with
  | mk l =>
    show String.mk ((l ++ ['.']).map lowerChar) = String.mk (l.map lowerChar ++ ['.'])
    rw [List.map_append]
    simp [lowerChar_dot]

theorem pyRstripDot_append_dot (s : String) :
    pyRstripDot (s ++ ".") = pyRstripDot s := by
  cases s with
  | mk l =>
    show pyRstripDot (String.mk (l ++ ['.'])) = pyRstripDot (String.mk l)
    simp [pyRstripDot, List.reverse_append]

theorem host_in_bypass_eq (host : String) :
    host_in_bypass host =
      (BYPASS_HOSTS.contains (pyRstripDot (pyLower host))
       || BYPASS_SUFFIXES.any (fun s =>
            pyRstripDot (pyLower host) == pyLower s
            || pyEndsWith (pyRstripDot (pyLower host)) ("." ++ pyLower s))) := by
  unfold host_in_bypass
  by_cases hc : BYPASS_HOSTS.contains (pyRstripDot (pyLower host)) = true <;>
    simp [hc]

/-- C3: host_in_bypass is lower-case-insensitive and trailing-dot-insensitive;
it holds exactly when the normalized host is an exact bypass host, equals a
configured suffix, or ends in "." followed by a configured suffix; in
particular xgoogle.com and evilgoogle.com do not match while www.google.com
does. -/
theorem c3_bypass_classifier :
    (∀ h : String, host_in_bypass (pyLower h) = host_in_bypass h)
    ∧ (∀ h : String, host_in_bypass (h ++ ".") = host_in_bypass h)
    ∧ (∀ h : String, host_in_bypass h = true ↔
        (pyRstripDot (pyLower h) ∈ BYPASS_HOSTS
         ∨ ∃ s ∈ BYPASS_SUFFIXES,
             pyRstripDot (pyLower h) = pyLower s
             ∨ pyEndsWith (pyRstripDot (pyLower h)) ("." ++ pyLower s) = true))
    ∧ host_in_bypass "xgoogle.com" = false
    ∧ host_in_bypass "evilgoogle.com" = false
    ∧ host_in_bypass "www.google.com" = true := by
  refine ⟨?_, ?_, ?_, by decide, by decide, by decide⟩
  · intro h
    rw [host_in_bypass_eq, host_in_bypass_eq h, pyLower_idem]
  · intro h
    rw [host_in_bypass_eq, host_in_bypass_eq h, pyLower_append_dot,
      pyRstripDot_append_dot]
  · intro h
    rw [host_in_bypass_eq, Bool.or_eq_true, List.contains_eq_any_beq,
      List.any_eq_true, List.any_eq_true]
    simp only [Bool.or_eq_true, beq_iff_eq]
    constructor
    · rintro (⟨x, hx, rfl⟩ | ⟨s, hs, hcase⟩)
      · exact Or.inl hx
      · exact Or.inr ⟨s, hs, hcase⟩
    · rintro (hmem | ⟨s, hs, hcase⟩)
      · exact Or.inl ⟨_, hmem, rfl⟩
      · exact Or.inr ⟨s, hs, hcase⟩

/-- maxlen of UA_QUEUE, the deduplication deque from the source. -/
def UA_QUEUE_MAXLEN : Nat := 100

/-- collections.deque(maxlen=UA_QUEUE_MAXLEN).append: add on the right; when
the deque is over capacity, entries are discarded from the left (oldest). -/
def dequeAppend {α : Type} (q : List α) (x : α) : List α :=
  let q2 := q ++ [x]
  if UA_QUEUE_MAXLEN < q2.length then q2.drop (q2.length - UA_QUEUE_MAXLEN)
  else q2

/-- The check-and-insert on UA_QUEUE inside handle:
if h not in UA_QUEUE: UA_QUEUE.append(h). Returns (seen-before, queue-after). -/
def seenAndMark {α : Type} [DecidableEq α] (q : List α) (x : α) :
    Bool × List α :=
  if x ∈ q then (true, q) else (false, dequeAppend q x)

/-- Insert a whole sequence of fingerprints into an initially empty queue. -/
def insertAll {α : Type} [DecidableEq α] (xs : List α) : List α :=
  xs.foldl (fun q x => (seenAndMark q x).2) []

theorem mem_drop_append_singleton {α : Type} (x : α) :
    ∀ (q : List α) (k : Nat), k ≤ q.length → x ∈ (q ++ [x]).drop k := by
  intro q
  induction q with
  | nil =>
    intro k hk
    have hk0 : k = 0 := by simpa using hk
    subst hk0
    simp
  | cons a t ih =>
    intro k hk
    match k with
    | 0 => simp
    | j + 1 =>
      show x ∈ (t ++ [x]).drop j
      exact ih j (by simpa using hk)

theorem mem_dequeAppend {α : Type} (q : List α) (x : α) :
    x ∈ dequeAppend q x := by
  simp only [dequeAppend]
  split
  · rename_i hcond
    apply mem_drop_append_singleton
    simp only [UA_QUEUE_MAXLEN, List.length_append, List.length_singleton]
      at hcond ⊢
    omega
  · simp

theorem dequeAppend_small {α : Type} (q : List α) (x : α)
    (h : q.length + 1 ≤ UA_QUEUE_MAXLEN) : dequeAppend q x = q ++ [x] := by
  have hcond : ¬ UA_QUEUE_MAXLEN < (q ++ [x]).length := by
    simp only [UA_QUEUE_MAXLEN, List.length_append, List.length_singleton]
    simp only [UA_QUEUE_MAXLEN] at h
    omega
  simp only [dequeAppend]
  rw [if_neg hcond]

theorem insertAll_foldl_nodup {α : Type} [DecidableEq α] :
    ∀ (xs q : List α), (q ++ xs).Nodup → (q ++ xs).length ≤ UA_QUEUE_MAXLEN →
      xs.foldl (fun q x => (seenAndMark q x).2) q = q ++ xs := by
  intro xs
  induction xs with
  | nil => intro q _ _; simp
  | cons x t ih =>
    intro q hnd hlen
    have hx : x ∉ q := by
      intro hmem
      have := List.disjoint_of_nodup_append hnd
      exact this hmem (by simp)
    have hstep : (seenAndMark q x).2 = q ++ [x] := by
      unfold seenAndMark
      rw [if_neg hx]
      apply dequeAppend_small
      simp only [List.length_append, List.length_cons] at hlen
      omega
    show List.foldl (fun q x => (seenAndMark q x).2) (seenAndMark q x).2 t
        = q ++ x :: t
    rw [hstep]
    have h2 : ((q ++ [x]) ++ t).Nodup := by simpa using hnd
    have h3 : ((q ++ [x]) ++ t).length ≤ UA_QUEUE_MAXLEN := by
      simpa [List.length_append] using hlen
    rw [ih (q ++ [x]) h2 h3]
    simp

theorem dequeAppend_full {α : Type} (a : α) (t : List α) (x : α)
    (h : (a :: t).length = UA_QUEUE_MAXLEN) :
    dequeAppend (a :: t) x = t ++ [x] := by
  simp only [dequeAppend]
  rw [if_pos]
  · have hd : ((a :: t) ++ [x]).length - UA_QUEUE_MAXLEN = 1 := by
      simp only [UA_QUEUE_MAXLEN, List.length_append, List.length_cons,
        List.length_nil] at h ⊢
      omega
    rw [hd]
    simp
  · simp only [UA_QUEUE_MAXLEN, List.length_append, List.length_cons,
      List.length_nil] at h ⊢
    omega

/-- C4: UA_QUEUE is a bounded FIFO membership structure of capacity 100:
the check-and-insert reports a fingerprint unseen the first time and seen
the second time, and inserting capacity-plus-one distinct fingerprints into
an empty queue evicts the first-inserted one. -/
theorem c4_fingerprint_deduper {α : Type} [DecidableEq α] :
    (∀ (q : List α) (x : α), x ∉ q →
      (seenAndMark q x).1 = false
      ∧ (seenAndMark (seenAndMark q x).2 x).1 = true)
    ∧ (∀ (x0 : α) (rest : List α), (x0 :: rest).Nodup →
        rest.length = UA_QUEUE_MAXLEN →
        x0 ∉ insertAll (x0 :: rest)) := by
  constructor
  · intro q x hx
    constructor
    · simp [seenAndMark, hx]
    · have h2 : (seenAndMark q x).2 = dequeAppend q x := by
        simp [seenAndMark, hx]
      rw [h2]
      simp [seenAndMark, mem_dequeAppend]
  · intro x0 rest hnd hlen
    obtain h0 | ⟨front, z, rfl⟩ := List.eq_nil_or_concat rest
    · rw [h0] at hlen
      simp [UA_QUEUE_MAXLEN] at hlen
    · simp only [List.concat_eq_append] at hnd hlen ⊢
      have hfl : front.length = 99 := by
        simp only [List.length_append, List.length_singleton,
          UA_QUEUE_MAXLEN] at hlen
        omega
      have hx0 : x0 ∉ front ++ [z] := (List.nodup_cons.mp hnd).1
      have hndt : (front ++ [z]).Nodup := (List.nodup_cons.mp hnd).2
      have hnd1 : (x0 :: front).Nodup := by
        have hsub : (x0 :: front).Sublist (x0 :: (front ++ [z])) :=
          List.Sublist.cons₂ x0 (List.sublist_append_left front [z])
        exact hsub.nodup hnd
      have hzf : z ∉ front := by
        intro hmem
        exact (List.disjoint_of_nodup_append hndt) hmem (by simp)
      have hzx : z ≠ x0 := by
        intro he
        exact hx0 (by simp [← he])
      have hz : z ∉ x0 :: front := by
        simp only [List.mem_cons, not_or]
        exact ⟨hzx, hzf⟩
      simp only [insertAll, List.foldl_cons]
      have hstep0 : (seenAndMark ([] : List α) x0).2 = [x0] := by
        simp [seenAndMark, dequeAppend, UA_QUEUE_MAXLEN]
      rw [hstep0, List.foldl_append]
      have hmid : List.foldl (fun q x => (seenAndMark q x).2) [x0] front
          = x0 :: front := by
        have hr := insertAll_foldl_nodup front [x0]
          (by simpa using hnd1)
          (by simp only [List.length_append, List.length_singleton, hfl,
                UA_QUEUE_MAXLEN]; omega)
        simpa using hr
      rw [hmid]
      simp only [List.foldl_cons, List.foldl_nil]
      have hzstep : seenAndMark (x0 :: front) z
          = (false, dequeAppend (x0 :: front) z) := by
        simp only [seenAndMark]
        rw [if_neg hz]
      rw [hzstep]
      show x0 ∉ dequeAppend (x0 :: front) z
      rw [dequeAppend_full x0 front z
        (by simp [List.length_cons, hfl, UA_QUEUE_MAXLEN])]
      exact hx0

theorem c4_fingerprint_deduper_witness :
    ((seenAndMark ([] : List Nat) 7).1 = false
      ∧ (seenAndMark (seenAndMark ([] : List Nat) 7).2 7).1 = true)
    ∧ 0 ∉ insertAll (0 :: (List.range 100).map (fun i => i + 1)) := by
  refine ⟨c4_fingerprint_deduper.1 [] 7 (by simp),
    c4_fingerprint_deduper.2 0 ((List.range 100).map (fun i => i + 1))
      (by decide) (by decide)⟩

/-- Python url.startswith(t). -/
def pyStartsWith (s t : String) : Bool := t.data.isPrefixOf s.data

/-- CERT_BEHAVIOR_SCORES from the source. -/
def CERT_BEHAVIOR_SCORES : List (String × Int) :=
  [("validates_certs", 0), ("ignores_certs", 30), ("connection_failed", 15),
   ("cert_expired", 20), ("cert_self_signed", 25),
   ("cert_hostname_mismatch", 35)]

/-- CERT_BEHAVIOR_SCORES[b]: the dict lookup used by the source (only ever
applied to keys that are present). -/
def scoreOf (b : String) : Int := (List.lookup b CERT_BEHAVIOR_SCORES).getD 0

/-- Outcome of one outbound HTTP request made by the prober, as seen by the
surrounding try/except: a response carrying a status code, or one of the
exception classes the code distinguishes, or any other exception with its
type name. -/
inductive ReqOutcome : Type
  | resp (status : Nat)
  | sslError (msg : String)
  | connectTimeout
  | connectionError
  | otherExc (typeName : String)
deriving DecidableEq

/-- The SSLError-branch classification of _analyze_cert_behavior: inspect
the lower-cased error text for markers. When the text does not contain
certificate verify failed, the behavior variable keeps its initial value
"unknown". -/
def classifySslError (m : String) : String :=
  if pyContains m "certificate verify failed" then
    if pyContains m "certificate has expired" then "cert_expired"
    else if pyContains m "self signed certificate" then "cert_self_signed"
    else if pyContains m "hostname" || pyContains m "doesn\x27t match" then
      "cert_hostname_mismatch"
    else "cert_validation_failed"
  else "unknown"

/-- _analyze_cert_behavior from the source, with the two outbound requests
(verify=True, then verify=False inside the SSLError handler) replaced by
their outcomes. Returns (behavior, additional_risk). -/
def analyze_cert_behavior (ua url : String) (first second : ReqOutcome) :
    String × Int :=
  if ¬ pyStartsWith url "https://" then ("non_https", 0)
  else
    match first with
    | .resp s =>
        if s = 200 then ("validates_certs", scoreOf "validates_certs")
        else ("unknown", 0)
    | .sslError msg =>
        let behavior := classifySslError (pyLower msg)
        match second with
        | .resp s2 =>
            if s2 = 200 then ("ignores_certs", scoreOf "ignores_certs")
            else (behavior, 0)
        | _ => ("connection_failed", scoreOf "connection_failed")
    | .connectTimeout => ("connection_timeout", 5)
    | .connectionError => ("connection_failed", scoreOf "connection_failed")
    | .otherExc t => ("unknown_error_" ++ t, 10)

/-- How many outbound probe requests _analyze_cert_behavior performs: none
for a non-https url (early return before any request), one more inside the
SSLError handler. -/
def analyze_requestCount (url : String) (first : ReqOutcome) : Nat :=
  if ¬ pyStartsWith url "https://" then 0
  else match first with
    | .sslError _ => 2
    | _ => 1

/-- The classification set enumerated by the spec. -/
def CERT_CLASSIFICATIONS : List String :=
  ["validates_certs", "ignores_certs", "connection_failed",
   "connection_timeout", "cert_expired", "cert_self_signed",
   "cert_hostname_mismatch", "cert_validation_failed", "non_https",
   "unknown_error"]

theorem classifySslError_mem (m : String) :
    classifySslError m ∈
      ["cert_expired", "cert_self_signed", "cert_hostname_mismatch",
       "cert_validation_failed", "unknown"] := by
  unfold classifySslError
  split_ifs <;> simp

/-- C5 counterexample: a generic exception whose type is named ValueError
yields the classification unknown_error_ValueError, a string outside the
enumerated classification set (the code suffixes the exception type name,
the spec enumerates a bare unknown_error). -/
theorem c5_counterexample :
    analyze_cert_behavior "curl/8.0" "https://x" (.otherExc "ValueError")
        (.resp 200)
      = ("unknown_error_ValueError", 10)
    ∧ "unknown_error_ValueError" ∉ CERT_CLASSIFICATIONS := by
  constructor
  · decide
  · decide

/-- C5 amended: for every probe outcome the classification is one of the
enumerated set, or the placeholder "unknown" (a response with a non-200
status on a verified request, risk 0), or a string of the shape
unknown_error_ followed by the exception type name, with risk 10. -/
theorem c5_classification_range (ua url : String)
    (first second : ReqOutcome) :
    (analyze_cert_behavior ua url first second).1 ∈ CERT_CLASSIFICATIONS
    ∨ ((analyze_cert_behavior ua url first second).1 = "unknown"
        ∧ (analyze_cert_behavior ua url first second).2 = 0)
    ∨ (∃ t, (analyze_cert_behavior ua url first second).1
          = "unknown_error_" ++ t
        ∧ (analyze_cert_behavior ua url first second).2 = 10) := by
  unfold analyze_cert_behavior
  split
  · exact Or.inl (by simp [CERT_CLASSIFICATIONS])
  · cases first with
    | resp s =>
      by_cases h200 : s = 200
      · simp only [h200, if_pos]
        exact Or.inl (by simp [CERT_CLASSIFICATIONS])
      · simp only [if_neg h200]
        refine Or.inr (Or.inl ⟨?_, ?_⟩) <;> trivial
    | sslError msg =>
      cases second with
      | resp s2 =>
        by_cases h200 : s2 = 200
        · simp only [h200, if_pos]
          exact Or.inl (by simp [CERT_CLASSIFICATIONS])
        · simp only [if_neg h200]
          have hm := classifySslError_mem (pyLower msg)
          simp only [List.mem_cons, List.not_mem_nil, or_false] at hm
          rcases hm with h | h | h | h | h <;> rw [h]
          · exact Or.inl (by simp [CERT_CLASSIFICATIONS])
          · exact Or.inl (by simp [CERT_CLASSIFICATIONS])
          · exact Or.inl (by simp [CERT_CLASSIFICATIONS])
          · exact Or.inl (by simp [CERT_CLASSIFICATIONS])
          · refine Or.inr (Or.inl ⟨?_, ?_⟩) <;> trivial
      | sslError m2 => exact Or.inl (by simp [CERT_CLASSIFICATIONS])
      | connectTimeout => exact Or.inl (by simp [CERT_CLASSIFICATIONS])
      | connectionError => exact Or.inl (by simp [CERT_CLASSIFICATIONS])
      | otherExc t2 => exact Or.inl (by simp [CERT_CLASSIFICATIONS])
    | connectTimeout => exact Or.inl (by simp [CERT_CLASSIFICATIONS])
    | connectionError => exact Or.inl (by simp [CERT_CLASSIFICATIONS])
    | otherExc t => exact Or.inr (Or.inr ⟨t, rfl, rfl⟩)

/-- C6: a url that does not begin with https:// short-circuits to
(non_https, 0) with zero outbound requests, whatever the network would have
done; an https url whose verified reference request answers 200 yields
(validates_certs, 0). -/
theorem c6_probe_shortcircuit (ua url : String) (first second : ReqOutcome) :
    (pyStartsWith url "https://" = false →
      analyze_cert_behavior ua url first second = ("non_https", 0)
      ∧ analyze_requestCount url first = 0)
    ∧ (pyStartsWith url "https://" = true →
      analyze_cert_behavior ua url (.resp 200) second
        = ("validates_certs", 0)) := by
  constructor
  · intro h
    constructor
    · unfold analyze_cert_behavior
      rw [if_pos (by simp [h])]
    · unfold analyze_requestCount
      rw [if_pos (by simp [h])]
  · intro h
    unfold analyze_cert_behavior
    rw [if_neg (by simp [h])]
    rfl

theorem c6_probe_shortcircuit_witness :
    (analyze_cert_behavior "curl/8.0" "http://x" (.resp 200) (.resp 200)
        = ("non_https", 0)
      ∧ analyze_requestCount "http://x" (.resp 200) = 0)
    ∧ analyze_cert_behavior "curl/8.0" "https://x" (.resp 200) (.resp 200)
        = ("validates_certs", 0) := by
  refine ⟨(c6_probe_shortcircuit "curl/8.0" "http://x" (.resp 200)
    (.resp 200)).1 (by decide),
    (c6_probe_shortcircuit "curl/8.0" "https://x" (.resp 200)
      (.resp 200)).2 (by decide)⟩

/-- JSON-like values appearing in payloads and log records. Timestamps are
carried as integers (epoch seconds or millis as the field dictates). -/
inductive JVal : Type
  | s (v : String)
  | n (v : Int)
  | b (v : Bool)
  | obj (fields : List (String × String))
  | arr (items : List String)
  | null
deriving DecidableEq

/-- SafeLogEffects: everything _safe_log can write, by destination: JSON
files in LOG_DIR, lines on the standard error stream, and lines appended to
a fixed emergency path outside LOG_DIR. -/
structure SafeLogEffects : Type where
  filesWritten : List (String × String)
  stderrLines : List String
  emergencyLines : List String
deriving DecidableEq

/-- The file name _safe_log writes: mitm_<unixtime>_<random-suffix>.json
inside LOG_DIR. -/
def safeLogFname (ts : Nat) (rand6 : String) : String :=
  "mitm_" ++ toString ts ++ "_" ++ rand6 ++ ".json"

/-- The try-block of _safe_log: open the target file and dump the payload.
The write can fail for any filesystem reason (unwritable directory, full
disk), modelled by writeOk; on failure the raised message is errMsg. -/
def safeLogBody (writeOk : Bool) (errMsg : String) (ts : Nat)
    (rand6 : String) (payload : String) : Except String (String × String) :=
  if writeOk then .ok (safeLogFname ts rand6, payload) else .error errMsg

/-- _safe_log from the source: any failure of the body is caught and turned
into a single EMERG-LOG-FAIL diagnostic line on stderr. The source never
appends to any emergency path, so emergencyLines is empty on every path. -/
def safe_log (writeOk : Bool) (errMsg : String) (ts : Nat) (rand6 : String)
    (payload : String) : SafeLogEffects :=
  match safeLogBody writeOk errMsg ts rand6 payload with
  | .ok f => ⟨[f], [], []⟩
  | .error e => ⟨[], ["EMERG-LOG-FAIL " ++ e], []⟩

/-- C1 counterexample: a persist whose primary write fails produces one
stderr diagnostic and zero lines at any emergency path, not exactly one
emergency-path line as claimed. -/
theorem c1_counterexample :
    (safe_log false "PermissionError: log dir unwritable" 1700000000
        "abc123" "payload").stderrLines.length = 1
    ∧ (safe_log false "PermissionError: log dir unwritable" 1700000000
        "abc123" "payload").emergencyLines.length = 0 := by
  constructor
  · rfl
  · rfl

/-- C1 amended: _safe_log never writes an emergency-path line at all; when
the primary write fails it degrades to exactly one EMERG-LOG-FAIL line on
standard error (and no file), and it never throws past its boundary (the
catch turns every body failure into that stderr line). -/
theorem c1_safe_log_degrades (writeOk : Bool) (e : String) (ts : Nat)
    (r p : String) :
    (safe_log writeOk e ts r p).emergencyLines = []
    ∧ (writeOk = false →
        (safe_log writeOk e ts r p).stderrLines = ["EMERG-LOG-FAIL " ++ e]
        ∧ (safe_log writeOk e ts r p).filesWritten = [])
    ∧ (writeOk = true →
        (safe_log writeOk e ts r p).stderrLines = []
        ∧ (safe_log writeOk e ts r p).filesWritten
            = [(safeLogFname ts r, p)]) := by
  cases writeOk <;> simp [safe_log, safeLogBody]

theorem c1_safe_log_degrades_witness :
    (safe_log false "disk full" 1 "aaaaaa" "x").emergencyLines = []
    ∧ (safe_log false "disk full" 1 "aaaaaa" "x").stderrLines
        = ["EMERG-LOG-FAIL disk full"]
    ∧ (safe_log false "disk full" 1 "aaaaaa" "x").filesWritten = [] :=
  ⟨(c1_safe_log_degrades false "disk full" 1 "aaaaaa" "x").1,
   ((c1_safe_log_degrades false "disk full" 1 "aaaaaa" "x").2.1 rfl).1,
   ((c1_safe_log_degrades false "disk full" 1 "aaaaaa" "x").2.1 rfl).2⟩

/-- The JSON payload _http_post_ua sends to the scanner endpoint. -/
def relayPayload (ua url : String) (cb : String × Int) (ts : Int) :
    List (String × JVal) :=
  [("ua", .s ua), ("url", .s url), ("cert_behavior", .s cb.1),
   ("cert_risk_bonus", .n cb.2), ("analysis_timestamp", .n ts)]

/-- Outcome of the requests.post call in _http_post_ua: a response with a
status code, or a transport-level exception. -/
inductive PostOutcome : Type
  | resp (status : Nat)
  | exc (msg : String)
deriving DecidableEq

/-- The record _http_post_ua hands to _safe_log on failure. -/
def scannerFailRecord (ua url cb err : String) : List (String × JVal) :=
  [("type", .s "scanner_fail"), ("ua", .s (pySlice 80 ua)),
   ("url", .s url), ("cert_behavior", .s cb), ("err", .s err)]

/-- Observable effects of one _http_post_ua call: the payloads posted to
the scanner endpoint (one entry per POST attempt) and the records persisted
through the fallback logger. -/
structure RelayEffects : Type where
  postedPayloads : List (List (String × JVal))
  fallbackRecords : List (List (String × JVal))
deriving DecidableEq

/-- The status check following the post in _http_post_ua:
if r.status_code != 200: raise RuntimeError(f"HTTP r.status_code");
a transport exception propagates as-is. -/
def httpPostCheck (post : PostOutcome) : Except String Unit :=
  match post with
  | .exc m => .error m
  | .resp s => if s ≠ 200 then .error ("HTTP " ++ toString s) else .ok ()

/-- _http_post_ua from the source: analyze cert behavior, POST the enriched
payload once, raise on a non-200 status; the surrounding try/except catches
every failure and persists a scanner_fail record via _safe_log, so nothing
escapes to the caller. -/
def http_post_ua (ua url : String) (first second : ReqOutcome) (ts : Int)
    (post : PostOutcome) : RelayEffects :=
  let cb := analyze_cert_behavior ua url first second
  match httpPostCheck post with
  | .ok _ => ⟨[relayPayload ua url cb ts], []⟩
  | .error e =>
      ⟨[relayPayload ua url cb ts], [scannerFailRecord ua url cb.1 e]⟩

/-- C2 counterexample: a 204 response is 2xx, yet the dispatcher persists a
fallback record for it, because the code treats every status other than
exactly 200 as failure. -/
theorem c2_counterexample :
    (http_post_ua "curl/8.0" "https://x" (.resp 200) (.resp 200) 0
        (.resp 204)).fallbackRecords.length = 1
    ∧ 200 ≤ 204 ∧ 204 < 300 := by
  refine ⟨rfl, by omega, by omega⟩

/-- C2 amended: _http_post_ua never raises to its caller, makes exactly one
POST attempt per call, and persists exactly one fallback record exactly
when the response status differs from 200 or a transport error occurs; only
a response with status exactly 200 counts as success. -/
theorem c2_relay_dispatcher (ua url : String) (first second : ReqOutcome)
    (ts : Int) (post : PostOutcome) :
    (http_post_ua ua url first second ts post).postedPayloads.length = 1
    ∧ (post = .resp 200 →
        (http_post_ua ua url first second ts post).fallbackRecords = [])
    ∧ (post ≠ .resp 200 →
        (http_post_ua ua url first second ts post).fallbackRecords.length
          = 1) := by
  refine ⟨?_, ?_, ?_⟩
  · cases post with
    | resp s =>
      by_cases h : s = 200 <;> simp [http_post_ua, httpPostCheck, h]
    | exc m => simp [http_post_ua, httpPostCheck]
  · intro h
    subst h
    simp [http_post_ua, httpPostCheck]
  · intro h
    cases post with
    | resp s =>
      have hs : s ≠ 200 := by
        intro he
        exact h (by rw [he])
      simp [http_post_ua, httpPostCheck, hs]
    | exc m => simp [http_post_ua, httpPostCheck]

theorem c2_relay_dispatcher_witness :
    ((http_post_ua "ua" "https://x" (.resp 200) (.resp 200) 0
        (.resp 200)).postedPayloads.length = 1
      ∧ (http_post_ua "ua" "https://x" (.resp 200) (.resp 200) 0
          (.resp 200)).fallbackRecords = [])
    ∧ (http_post_ua "ua" "https://x" (.resp 200) (.resp 200) 0
        (.exc "connection refused")).fallbackRecords.length = 1 :=
  ⟨⟨(c2_relay_dispatcher "ua" "https://x" (.resp 200) (.resp 200) 0
      (.resp 200)).1,
    (c2_relay_dispatcher "ua" "https://x" (.resp 200) (.resp 200) 0
      (.resp 200)).2.1 rfl⟩,
   (c2_relay_dispatcher "ua" "https://x" (.resp 200) (.resp 200) 0
      (.exc "connection refused")).2.2 (by simp)⟩

/-- SockClient._connect from the source: up to three attempts; finding the
flag already set returns immediately; a successful sio.connect sets the
connected flag via the connect event; a failure is caught, logged, slept
over, and the loop continues. attempts lists the outcome of each try in order;
the result is the connected flag when _connect returns. -/
def sockConnect (attempts : List Bool) (connected : Bool) : Bool :=
  match attempts with
  | [] => connected
  | a :: rest =>
      if connected then connected
      else if a then true
      else sockConnect rest false

/-- SockClient.emit from the source, under its lock: when connected, try the
send; a send failure flips connected to False and is swallowed; when not
connected, nothing at all happens. Returns (send-performed, connected-after). -/
def sockEmit (connected : Bool) (sendOk : Bool) : Bool × Bool :=
  if connected then
    if sendOk then (true, true) else (false, false)
  else (false, connected)

/-- C8: three failed connect attempts leave the client disconnected, and
emit while disconnected performs no send and changes no state (and, being a
total function of the outcome, cannot throw). -/
theorem c8_resilient_event_client :
    (∀ a1 a2 a3 : Bool, a1 = false → a2 = false → a3 = false →
      sockConnect [a1, a2, a3] false = false)
    ∧ (∀ sendOk : Bool, sockEmit false sendOk = (false, false)) := by
  constructor
  · intro a1 a2 a3 h1 h2 h3
    subst h1
    subst h2
    subst h3
    rfl
  · intro sendOk
    rfl

theorem c8_resilient_event_client_witness :
    sockConnect [false, false, false] false = false
    ∧ sockEmit false true = (false, false) :=
  ⟨c8_resilient_event_client.1 false false false rfl rfl rfl,
   c8_resilient_event_client.2 true⟩

/-- MAX_UA_LENGTH from the source. -/
def MAX_UA_LENGTH : Nat := 1024

/-- (flow.request.headers.get("User-Agent", "") or "NO_UA")[:MAX_UA_LENGTH]
as computed identically by both hooks: a missing header yields the default
empty string, Python or replaces a falsy (empty) string by NO_UA, then the
result is truncated. -/
def effectiveUA (h : Option String) : String :=
  pySlice MAX_UA_LENGTH (if h.getD "" = "" then "NO_UA" else h.getD "")

/-- The read-only view of one intercepted exchange the proxy host hands to
the hooks. clientConn carries the peer IP when a client connection object
exists. responseStatus and serverHeader are present only on the response
path. -/
structure Exchange : Type where
  host : String
  url : String
  method : String
  scheme : String
  userAgentHeader : Option String
  contentTypeHeader : Option String
  clientConn : Option String
  tlsEstablished : Bool
  tlsVersion : Option String
  cipher : Option String
  responseStatus : Option Nat
  serverHeader : Option String
deriving DecidableEq

/-- The TLS-metadata block of the request hook: runs only when TLS is
established; any error inside it is swallowed by the inner bare except,
leaving the defaults. Returns (tls_info, tls_suspicious); versions TLSv1
and TLSv1.1 are flagged. -/
def tlsBlock (ex : Exchange) (tlsFault : Bool) :
    List (String × String) × Bool :=
  if ex.tlsEstablished then
    if tlsFault then ([], false)
    else
      let info :=
        (match ex.cipher with
         | some c => [("cipher", c)]
         | none => []) ++
        (match ex.tlsVersion with
         | some v => [("tls_version", v)]
         | none => [])
      (info, ex.tlsVersion == some "TLSv1" || ex.tlsVersion == some "TLSv1.1")
  else ([], false)

/-- The Socket.IO uaUpdate event payload built inside handle. -/
def uaUpdatePayload (ua url : String) (tsMillis : Int) (srcIp : String)
    (tlsInfo : List (String × String)) (tlsSuspicious : Bool)
    (method contentType host scheme : String) : List (String × JVal) :=
  [("ua", .s ua), ("url", .s url), ("ts", .n tsMillis),
   ("src_ip", .s srcIp), ("tls_info", .obj tlsInfo),
   ("tls_suspicious", .b tlsSuspicious), ("request_method", .s method),
   ("content_type", .s contentType), ("host", .s host),
   ("scheme", .s scheme)]

/-- Effects of one detached handle worker: the effects of the relay call, the
dedup queue afterwards, and the events handed to sock.emit. -/
structure WorkerEffects : Type where
  relay : RelayEffects
  queueAfter : List String
  emitted : List (String × List (String × JVal))
deriving DecidableEq

/-- handle from the request hook: post to the scanner (with cert analysis),
fingerprint the exchange (fp stands for the sha256 hex digest of
ua:url:client_ip, left abstract here), and emit one uaUpdate event exactly when
the fingerprint is unseen. -/
def handleWorker (ex : Exchange) (ua : String)
    (tlsInfo : List (String × String)) (tlsSuspicious : Bool) (fp : String)
    (q : List String) (first second : ReqOutcome) (post : PostOutcome)
    (tsSec : Int) (tsMillis : Int) (clientIp : String) : WorkerEffects :=
  let relay := http_post_ua ua ex.url first second tsSec post
  match seenAndMark q fp with
  | (true, q2) => ⟨relay, q2, []⟩
  | (false, q2) =>
      ⟨relay, q2,
       [("uaUpdate",
         uaUpdatePayload ua ex.url tsMillis clientIp tlsInfo tlsSuspicious
           ex.method (ex.contentTypeHeader.getD "") ex.host ex.scheme)]⟩

/-- Faults that may arise inside the hook bodies beyond the modelled network
outcomes: a fault while reading TLS metadata (swallowed by the inner bare
except) and a fault at a later point of either hook body (reaching the
outer try/except of the hook with the raised message). -/
structure FaultEnv : Type where
  tlsFault : Bool
  requestBodyFault : Option String
  responseBodyFault : Option String
deriving DecidableEq

/-- What one request-hook invocation did. -/
structure RequestEffects : Type where
  bypassed : Bool
  worker : Option WorkerEffects
  hookErrorRecords : List (List (String × JVal))
deriving DecidableEq

/-- Everything inside the try of the request hook: bypass gate, effective UA,
client IP, TLS block, then the spawned worker. A body fault escapes here as
an error. -/
def requestBody (ex : Exchange) (env : FaultEnv) (fp : String)
    (q : List String) (first second : ReqOutcome) (post : PostOutcome)
    (tsSec tsMillis : Int) : Except String RequestEffects :=
  if host_in_bypass ex.host then .ok ⟨true, none, []⟩
  else
    let ua := effectiveUA ex.userAgentHeader
    let clientIp := ex.clientConn.getD "unknown"
    let tb := tlsBlock ex env.tlsFault
    match env.requestBodyFault with
    | some e => .error e
    | none =>
        .ok ⟨false,
          some (handleWorker ex ua tb.1 tb.2 fp q first second post tsSec
            tsMillis clientIp), []⟩

/-- The request hook as the proxy host invokes it: the outer try/except
catches any body error, logs it and persists a hook_error record via
_safe_log. The Except error channel is what could reach the proxy host. -/
def request (ex : Exchange) (env : FaultEnv) (fp : String) (q : List String)
    (first second : ReqOutcome) (post : PostOutcome) (tsSec tsMillis : Int) :
    Except String RequestEffects :=
  match requestBody ex env fp q first second post tsSec tsMillis with
  | .ok eff => .ok eff
  | .error e =>
      .ok ⟨false, none, [[("type", .s "hook_error"), ("err", .s e)]]⟩

/-- Status codes the response hook flags as unusual. -/
def unusualStatusCodes : List Nat := [418, 444, 999]

/-- Server-header substrings suggesting automation. -/
def automationIndicators : List String :=
  ["python", "curl", "wget", "scanner", "bot", "crawler"]

/-- The suspicious-response scan of the response hook: nothing without a
response; flag unusual status codes, then scan the lower-cased Server
header for the first automation marker (the loop breaks on the first hit).
Returns (suspicious, indicators). -/
def suspiciousResponse (status : Option Nat) (serverHeader : String) :
    Bool × List String :=
  match status with
  | none => (false, [])
  | some code =>
      let base : Bool × List String :=
        if unusualStatusCodes.contains code then
          (true, ["unusual_status_" ++ toString code])
        else (false, [])
      let sh := pyLower serverHeader
      match automationIndicators.find? (fun ind => pyContains sh ind) with
      | some ind => (true, base.2 ++ ["automation_server_" ++ ind])
      | none => base

/-- The suspicious_response record the response hook persists directly via
_safe_log. -/
def suspiciousResponseRecord (ua url : String) (indicators : List String)
    (status : Option Nat) (ts : Int) : List (String × JVal) :=
  [("type", .s "suspicious_response"), ("ua", .s (pySlice 80 ua)),
   ("url", .s url), ("indicators", .arr indicators),
   ("status_code", match status with | some c => .n c | none => .null),
   ("ts", .n ts)]

/-- What one response-hook invocation did. -/
structure ResponseEffects : Type where
  bypassed : Bool
  suspiciousRecords : List (List (String × JVal))
deriving DecidableEq

/-- Everything inside the try of the response hook. -/
def responseBody (ex : Exchange) (env : FaultEnv) (ts : Int) :
    Except String ResponseEffects :=
  if host_in_bypass ex.host then .ok ⟨true, []⟩
  else
    let ua := effectiveUA ex.userAgentHeader
    match env.responseBodyFault with
    | some e => .error e
    | none =>
        let sr := suspiciousResponse ex.responseStatus
          (ex.serverHeader.getD "")
        .ok ⟨false,
          if sr.1 then
            [suspiciousResponseRecord ua ex.url sr.2 ex.responseStatus ts]
          else []⟩

/-- The response hook as the proxy host invokes it: the outer try/except
catches any body error and only logs it. -/
def response (ex : Exchange) (env : FaultEnv) (ts : Int) :
    Except String ResponseEffects :=
  match responseBody ex env ts with
  | .ok eff => .ok eff
  | .error _ => .ok ⟨false, []⟩

/-- C9: the public hook entry points never raise to the proxy host: for
every exchange, fault environment and network outcome, both request and
response return normally — the outer catch of each hook turns every body error
into locally degraded effects. -/
theorem c9_hooks_never_raise (ex : Exchange) (env : FaultEnv) (fp : String)
    (q : List String) (first second : ReqOutcome) (post : PostOutcome)
    (tsSec tsMillis ts : Int) :
    (∃ eff, request ex env fp q first second post tsSec tsMillis = .ok eff)
    ∧ (∃ eff, response ex env ts = .ok eff) := by
  constructor
  · cases hb : requestBody ex env fp q first second post tsSec tsMillis with
    | ok e => exact ⟨e, by unfold request; rw [hb]⟩
    | error e => exact ⟨_, by unfold request; rw [hb]⟩
  · cases hb : responseBody ex env ts with
    | ok e => exact ⟨e, by unfold response; rw [hb]⟩
    | error e => exact ⟨_, by unfold response; rw [hb]⟩

theorem pySlice_ne_empty (n : Nat) (s : String) (hn : 0 < n)
    (hs : s ≠ "") : pySlice n s ≠ "" := by
  intro hc
  apply hs
  cases s with
  | mk l =>
    cases l with
    | nil => rfl
    | cons a t =>
      exfalso
      cases n with
      | zero => omega
      | succ m =>
        simp only [pySlice, List.take_succ_cons] at hc
        exact absurd (congrArg String.data hc) (by simp)

/-- C10: a missing or empty User-Agent header becomes the literal NO_UA in
the shared computation both hooks perform, and the effective user agent —
as well as its 80-character truncation used in fallback records — is never
the empty string. -/
theorem c10_no_empty_ua :
    (∀ h : Option String, h = none ∨ h = some "" → effectiveUA h = "NO_UA")
    ∧ (∀ h : Option String, effectiveUA h ≠ "")
    ∧ (∀ h : Option String, pySlice 80 (effectiveUA h) ≠ "") := by
  have hmain : ∀ h : Option String, effectiveUA h ≠ "" := by
    intro h
    unfold effectiveUA
    split
    · show pySlice MAX_UA_LENGTH "NO_UA" ≠ ""
      decide
    · rename_i hne
      exact pySlice_ne_empty _ _ (by decide) hne
  refine ⟨?_, hmain, ?_⟩
  · rintro h (rfl | rfl) <;> rfl
  · intro h
    exact pySlice_ne_empty _ _ (by omega) (hmain h)

theorem c10_no_empty_ua_witness :
    effectiveUA none = "NO_UA"
    ∧ effectiveUA (some "") = "NO_UA"
    ∧ effectiveUA (some "curl/8.0") ≠ ""
    ∧ pySlice 80 (effectiveUA none) ≠ "" :=
  ⟨c10_no_empty_ua.1 none (Or.inl rfl),
   c10_no_empty_ua.1 (some "") (Or.inr rfl),
   c10_no_empty_ua.2.1 (some "curl/8.0"),
   c10_no_empty_ua.2.2 none⟩

/-- The end-to-end scenario exchange of the spec: host evil.example.com, UA
curl/8.0, secure URL, no TLS metadata, no response view. Fields follow the
declaration order of Exchange. -/
def scenarioExchange : Exchange :=
  ⟨"evil.example.com", "https://evil.example.com/login", "GET", "https",
   some "curl/8.0", some "", some "10.0.0.5", false, none, none, none, none⟩

/-- A fault-free hook environment. -/
def scenarioEnv : FaultEnv := ⟨false, none, none⟩

/-- The key list of the event payload emitted by the request hook in the
end-to-end scenario (collector reachable, verifying cleanly, fingerprint
unseen). -/
def scenarioEmittedKeys : List String :=
  match request scenarioExchange scenarioEnv "fp0" [] (.resp 200) (.resp 200)
      (.resp 200) 5 5000 with
  | .ok r =>
      match r.worker with
      | some w =>
          match w.emitted with
          | [(_, pl)] => pl.map Prod.fst
          | _ => []
      | none => []
  | .error _ => []

/-- C7 counterexample: in the end-to-end scenario the emitted event carries
exactly ua, url, ts, src_ip, tls_info, tls_suspicious, request_method,
content_type, host and scheme — and no certificate-behavior field under any
spelling, contradicting the claimed certBehavior/certRiskBonus fields. -/
theorem c7_counterexample :
    scenarioEmittedKeys
      = ["ua", "url", "ts", "src_ip", "tls_info", "tls_suspicious",
         "request_method", "content_type", "host", "scheme"]
    ∧ "cert_behavior" ∉ scenarioEmittedKeys
    ∧ "certBehavior" ∉ scenarioEmittedKeys
    ∧ "cert_risk_bonus" ∉ scenarioEmittedKeys
    ∧ "certRiskBonus" ∉ scenarioEmittedKeys := by
  refine ⟨by decide, by decide, by decide, by decide, by decide⟩

/-- C7 amended: every uaUpdate event payload carries exactly the ten fields
ua, url, ts, src_ip, tls_info, tls_suspicious, request_method,
content_type, host, scheme — the certificate-behavior fields are absent
from it and travel only in the HTTP relay payload; and an unseen
fingerprint makes the worker emit exactly one such event. -/
theorem c7_event_payload (ua url : String) (tsMillis : Int) (srcIp : String)
    (tlsInfo : List (String × String)) (tlsSuspicious : Bool)
    (method contentType host scheme : String) (cb : String × Int)
    (ts : Int) :
    (uaUpdatePayload ua url tsMillis srcIp tlsInfo tlsSuspicious method
        contentType host scheme).map Prod.fst
      = ["ua", "url", "ts", "src_ip", "tls_info", "tls_suspicious",
         "request_method", "content_type", "host", "scheme"]
    ∧ "cert_behavior" ∉ (uaUpdatePayload ua url tsMillis srcIp tlsInfo
        tlsSuspicious method contentType host scheme).map Prod.fst
    ∧ "cert_risk_bonus" ∉ (uaUpdatePayload ua url tsMillis srcIp tlsInfo
        tlsSuspicious method contentType host scheme).map Prod.fst
    ∧ "cert_behavior" ∈ (relayPayload ua url cb ts).map Prod.fst
    ∧ "cert_risk_bonus" ∈ (relayPayload ua url cb ts).map Prod.fst
    ∧ (∀ (ex : Exchange) (fp : String) (q : List String)
        (first second : ReqOutcome) (post : PostOutcome)
        (tsSec tsMillis2 : Int) (ip : String), fp ∉ q →
        (handleWorker ex ua tlsInfo tlsSuspicious fp q first second post
          tsSec tsMillis2 ip).emitted
        = [("uaUpdate",
            uaUpdatePayload ua ex.url tsMillis2 ip tlsInfo tlsSuspicious
              ex.method (ex.contentTypeHeader.getD "") ex.host
              ex.scheme)]) := by
  refine ⟨rfl,
    by simp only [uaUpdatePayload, List.map_cons, List.map_nil]; decide,
    by simp only [uaUpdatePayload, List.map_cons, List.map_nil]; decide,
    by simp only [relayPayload, List.map_cons, List.map_nil]; decide,
    by simp only [relayPayload, List.map_cons, List.map_nil]; decide, ?_⟩
  intro ex fp q first second post tsSec tsMillis2 ip hfp
  simp [handleWorker, seenAndMark, hfp]

theorem c7_event_payload_witness :
    (uaUpdatePayload "curl/8.0" "https://x" 5000 "10.0.0.5" [] false "GET"
        "" "evil.example.com" "https").map Prod.fst
      = ["ua", "url", "ts", "src_ip", "tls_info", "tls_suspicious",
         "request_method", "content_type", "host", "scheme"]
    ∧ (handleWorker scenarioExchange "curl/8.0" [] false "fp0" []
        (.resp 200) (.resp 200) (.resp 200) 5 5000 "10.0.0.5").emitted
      = [("uaUpdate",
          uaUpdatePayload "curl/8.0" scenarioExchange.url 5000 "10.0.0.5"
            [] false scenarioExchange.method
            (scenarioExchange.contentTypeHeader.getD "")
            scenarioExchange.host scenarioExchange.scheme)] :=
  ⟨(c7_event_payload "curl/8.0" "https://x" 5000 "10.0.0.5" [] false "GET"
      "" "evil.example.com" "https" ("validates_certs", 0) 5).1,
   (c7_event_payload "curl/8.0" scenarioExchange.url 5000 "10.0.0.5" []
      false "GET" "" "evil.example.com" "https" ("validates_certs", 0)
      5).2.2.2.2.2 scenarioExchange "fp0" [] (.resp 200) (.resp 200)
      (.resp 200) 5 5000 "10.0.0.5" (by simp)⟩
